import Mathlib

/-!
Shallow embedding of `src/internal/backends/winit/glwindow.rs`: the window
lifecycle and rendering state machine of the `GLWindow` backend.

Pure data is modelled directly; side effects (GPU context currency, renderer
calls, rendering-notifier invocations, event-loop interaction, platform icon
calls) are modelled as an explicit trace of `Effect`s emitted by each
operation.  External inputs that the code reads (environment variables, the
runtime window, the platform window, layout info) are collected in an `Env`
record.  Rendering notifiers are identified by a `Nat` token.  A `none`
result of an operation models a Rust panic.
-/

namespace GLWindowSpec

/-- `euclid::Point2D<i32, PhysicalPx>`. -/
structure PhysicalPoint where
  x : Int
  y : Int
  deriving DecidableEq

/-- `euclid::Size2D<u32, PhysicalPx>`. -/
structure PhysicalSize where
  width : Nat
  height : Nat
  deriving DecidableEq

/-- `corelib::api::RenderingState`. -/
inductive RenderingState where
  | RenderingSetup
  | BeforeRendering
  | AfterRendering
  | RenderingTeardown
  deriving DecidableEq

/-- `corelib::api::SetRenderingNotifierError`. -/
inductive SetRenderingNotifierError where
  | AlreadySet
  deriving DecidableEq

/-- `crate::event_loop::CustomEvent` (the variants posted from glwindow.rs). -/
inductive CustomEvent where
  | UpdateWindowProperties (id : Nat)
  | WindowHidden
  deriving DecidableEq

/-- `MappedWindow` (glwindow.rs line 637): canvas, GL context (window id) and
cached layout constraints.  The canvas and the constraints are opaque tokens
here; the context is represented by the native window id it owns. -/
structure MappedWindow where
  canvas : Nat
  window_id : Nat
  constraints : Nat
  deriving DecidableEq

/-- `GraphicsWindowBackendState` (glwindow.rs line 651). -/
inductive GraphicsWindowBackendState where
  | Unmapped (requested_position : Option PhysicalPoint)
      (requested_size : Option PhysicalSize)
  | Mapped (window : MappedWindow)
  deriving DecidableEq

/-- The mutable fields of `GLWindow` (glwindow.rs line 31).  A rendering
notifier is identified by a `Nat` token. -/
structure GLWindowState where
  map_state : GraphicsWindowBackendState
  keyboard_modifiers : Nat
  currently_pressed_key_code : Option Nat
  existing_size : ℚ × ℚ
  rendering_notifier : Option Nat
  deriving DecidableEq

/-- The size argument passed to `WindowBuilder::with_inner_size`: either a
physical size (from the buffered request), a logical size, or a logical size
converted with `to_physical(scale)`. -/
inductive BuilderSize where
  | physical (width height : Nat)
  | logical (width height : ℚ)
  | logicalToPhysical (width height : ℚ) (scale : ℚ)
  deriving DecidableEq

/-- The `winit::window::WindowBuilder` configuration accumulated by `show()`. -/
structure WindowBuilder where
  title : String
  resizable : Bool
  fullscreen : Bool
  inner_size : Option BuilderSize
  decorations : Bool
  position : Option PhysicalPoint
  deriving DecidableEq

/-- `WindowBuilder::new().with_title(title).with_resizable(resizable)`
(glwindow.rs line 366). -/
def WindowBuilder.new (title : String) (resizable : Bool) : WindowBuilder :=
  { title := title, resizable := resizable, fullscreen := false,
    inner_size := none, decorations := true, position := none }

/-- One observable side effect of an operation, in program order. -/
inductive Effect where
  | makeCurrent
  | makeNotCurrent
  | releaseCanvasResources
  | notify (notifier : Nat) (state : RenderingState)
  | ensureResized
  | render (width height : Nat)
  | swapBuffers
  | setWindowItemGeometry (width height : ℚ)
  | createWindow (builder : WindowBuilder)
  | createCanvas (canvas : Nat)
  | setScaleFactor (factor : ℚ)
  | registerWindow (id : Nat)
  | unregisterWindow (id : Nat)
  | postEvent (event : CustomEvent)
  | setWindowIcon (rgba : List Nat) (width height : Nat)
  deriving DecidableEq

/-- Whether an effect is a `setScaleFactor`. -/
def Effect.is_set_scale : Effect → Bool
  | .setScaleFactor _ => true
  | _ => false

/-- Whether an effect is a `createWindow`. -/
def Effect.is_create_window : Effect → Bool
  | .createWindow _ => true
  | _ => false

/-- `Rgb8Pixel`: one 8-bit RGB pixel (components are byte values). -/
structure Rgb8Pixel where
  r : Nat
  g : Nat
  b : Nat
  deriving DecidableEq

/-- `Rgba8Pixel`: one 8-bit RGBA pixel (components are byte values). -/
structure Rgba8Pixel where
  r : Nat
  g : Nat
  b : Nat
  a : Nat
  deriving DecidableEq

/-- `corelib::graphics::SharedImageBuffer` with its pixel data and
dimensions. -/
inductive SharedImageBuffer where
  | RGB8 (width height : Nat) (pixels : List Rgb8Pixel)
  | RGBA8 (width height : Nat) (pixels : List Rgba8Pixel)
  | RGBA8Premultiplied (width height : Nat) (pixels : List Rgba8Pixel)
  deriving DecidableEq

/-- `SharedImageBuffer::width()`. -/
def SharedImageBuffer.width : SharedImageBuffer → Nat
  | .RGB8 w _ _ => w
  | .RGBA8 w _ _ => w
  | .RGBA8Premultiplied w _ _ => w

/-- `SharedImageBuffer::height()`. -/
def SharedImageBuffer.height : SharedImageBuffer → Nat
  | .RGB8 _ h _ => h
  | .RGBA8 _ h _ => h
  | .RGBA8Premultiplied _ h _ => h

/-- `corelib::graphics::ImageInner`, reduced to the distinction `set_icon`
makes: an embedded image with a pixel buffer, or anything else. -/
inductive ImageInner where
  | EmbeddedImage (buffer : SharedImageBuffer)
  | NonEmbedded
  deriving DecidableEq

/-- The conversion applied to one premultiplied RGBA chunk in `set_icon`
(glwindow.rs lines 229-239): each of the first three components becomes
`(component as u32 * alpha / 255) as u8` and the alpha byte is appended via
`alpha as u8`.  The `% 256` models the `as u8` casts. -/
def premultiplied_chunk_to_straight (p : Rgba8Pixel) : List Nat :=
  let alpha := p.a
  [p.r * alpha / 255 % 256, p.g * alpha / 255 % 256, p.b * alpha / 255 % 256,
   alpha % 256]

/-- The `rgba_pixels` buffer built by `set_icon` (glwindow.rs lines 222-240):
RGB8 pixels gain an opaque alpha byte, RGBA8 bytes are copied verbatim, and
RGBA8Premultiplied pixels go through `premultiplied_chunk_to_straight`. -/
def icon_rgba_pixels : SharedImageBuffer → List Nat
  | .RGB8 _ _ pixels => pixels.flatMap (fun p => [p.r, p.g, p.b, 255])
  | .RGBA8 _ _ pixels => pixels.flatMap (fun p => [p.r, p.g, p.b, p.a])
  | .RGBA8Premultiplied _ _ pixels =>
      pixels.flatMap premultiplied_chunk_to_straight

/-- `GLWindow::set_icon` (glwindow.rs lines 214-252): non-embedded images
return early; otherwise the pixel buffer is converted and, only if the window
is mapped, handed to `winit` as the window icon.  No field of the handle is
written. -/
def set_icon (st : GLWindowState) (icon : ImageInner) :
    GLWindowState × List Effect :=
  match icon with
  | .NonEmbedded => (st, [])
  | .EmbeddedImage buffer =>
    let rgba_pixels := icon_rgba_pixels buffer
    match st.map_state with
    | .Unmapped _ _ => (st, [])
    | .Mapped _ =>
      (st, [Effect.setWindowIcon rgba_pixels buffer.width buffer.height])

/-- The data `show()` reads from the root `WindowItem`, when one is bound
(glwindow.rs lines 354-364): title, the no-frame flag, and the explicit
width/height coordinates. -/
structure WindowItemData where
  title : String
  no_frame : Bool
  width : ℚ
  height : ℚ
  deriving DecidableEq

/-- The external inputs read by the operations: environment variables (with
`slint_scale_factor_var = some (some f)` meaning the variable is present and
parses to `f`, `some none` meaning present but unparseable, `none` meaning
absent), the runtime window, layout info, the platform window, and whether the
event loop has already terminated (in which case `send_event` fails). -/
structure Env where
  runtime_scale_factor : ℚ
  slint_scale_factor_var : Option (Option ℚ)
  slint_fullscreen : Bool
  window_item : Option WindowItemData
  layout_preferred_bounded_h : ℚ
  layout_preferred_bounded_v : ℚ
  platform_scale_factor : ℚ
  new_window_id : Nat
  new_canvas : Nat
  loop_terminated : Bool
  inner_size : PhysicalSize

/-- `GLWindow::invoke_rendering_notifier` (glwindow.rs lines 118-133): notify
the stored callback if one is registered, otherwise do nothing. -/
def invoke_rendering_notifier_effects (st : GLWindowState)
    (state : RenderingState) : List Effect :=
  match st.rendering_notifier with
  | some n => [Effect.notify n state]
  | none => []

/-- `GLWindow::set_rendering_notifier` (glwindow.rs lines 295-305): the code
runs `notifier.replace(callback)`, which stores the new callback
unconditionally, and then reports `AlreadySet` when the replaced slot was
occupied. -/
def set_rendering_notifier (st : GLWindowState) (callback : Nat) :
    GLWindowState × Except SetRenderingNotifierError Unit :=
  let old := st.rendering_notifier
  let st1 := { st with rendering_notifier := some callback }
  match old with
  | some _ => (st1, .error .AlreadySet)
  | none => (st1, .ok ())

/-- `GLWindow::release_graphics_resources` (glwindow.rs lines 107-115): under
`with_current_context` (a no-op when unmapped), first release the canvas's GPU
resources, then fire the `RenderingTeardown` notification.

The current/not-current bracketing of `with_current_context` is modelled from
the spec, since `glcontext.rs` is not part of the sources: the wrapper
guarantees correct current/not-current bracketing around every GPU-touching
operation. -/
def release_graphics_resources (st : GLWindowState) : List Effect :=
  match st.map_state with
  | .Unmapped _ _ => []
  | .Mapped _ =>
      [Effect.makeCurrent, Effect.releaseCanvasResources] ++
      invoke_rendering_notifier_effects st .RenderingTeardown ++
      [Effect.makeNotCurrent]

/-- `impl Drop for MappedWindow` (glwindow.rs lines 643-649): make the context
current and unregister the window id from the event loop. -/
def mapped_window_drop_effects (w : MappedWindow) : List Effect :=
  [Effect.makeCurrent, Effect.unregisterWindow w.window_id]

/-- Modelled from the spec: `event_loop::with_window_target` +
`EventLoopProxy::send_event` (the event-loop module is not part of the
sources).  Posting succeeds and delivers the event unless the loop has already
terminated, in which case it returns an error and delivers nothing. -/
def send_event (env : Env) (event : CustomEvent) :
    Except Unit Unit × List Effect :=
  if env.loop_terminated then (.error (), []) else (.ok (), [Effect.postEvent event])

/-- `GLWindow::hide` (glwindow.rs lines 491-507): release graphics resources
(no-op when unmapped), unconditionally replace the map state with a fresh
`Unmapped` with cleared buffered geometry (dropping the old `MappedWindow`, if
any), then post `WindowHidden` and `.unwrap()` the result — a `none` result
models the panic when the event loop is gone. -/
def hide (env : Env) (st : GLWindowState) :
    Option (GLWindowState × List Effect) :=
  let releaseEffects := release_graphics_resources st
  let dropEffects :=
    match st.map_state with
    | .Unmapped _ _ => []
    | .Mapped w => mapped_window_drop_effects w
  let st1 := { st with map_state := .Unmapped none none }
  let sent := send_event env .WindowHidden
  match sent.1 with
  | .error _ => none
  | .ok _ => some (st1, releaseEffects ++ dropEffects ++ sent.2)

/-- `GLWindow::draw` (glwindow.rs lines 154-185): return immediately when not
mapped; otherwise make the context current, resize if needed, render (the
renderer invokes the before-rendering callback, which dispatches
`BeforeRendering` only when a notifier is registered), fire `AfterRendering`,
swap buffers and release currency. -/
def draw (env : Env) (st : GLWindowState) : GLWindowState × List Effect :=
  match st.map_state with
  | .Unmapped _ _ => (st, [])
  | .Mapped _ =>
    let size := env.inner_size
    (st,
      [Effect.makeCurrent, Effect.ensureResized] ++
      (if st.rendering_notifier.isSome then
        invoke_rendering_notifier_effects st .BeforeRendering
       else []) ++
      [Effect.render size.width size.height] ++
      invoke_rendering_notifier_effects st .AfterRendering ++
      [Effect.swapBuffers, Effect.makeNotCurrent])

/-- `GLWindow::request_window_properties_update` (glwindow.rs lines 307-323):
nothing when unmapped; when mapped, post `UpdateWindowProperties(window_id)`
and swallow a delivery failure with `.ok()`. -/
def request_window_properties_update (env : Env) (st : GLWindowState) :
    GLWindowState × List Effect :=
  match st.map_state with
  | .Unmapped _ _ => (st, [])
  | .Mapped w =>
      (st, (send_event env (.UpdateWindowProperties w.window_id)).2)

/-- The window title / no-frame / resizable triple computed by `show()`
(glwindow.rs lines 354-364): taken from the root window item when bound
(resizable iff `height <= 0 && width <= 0`), with defaults otherwise. -/
def resolve_window_attributes (env : Env) : String × Bool × Bool :=
  match env.window_item with
  | some wi =>
      (wi.title, wi.no_frame, decide (wi.height ≤ 0) && decide (wi.width ≤ 0))
  | none => ("Slint Window", false, true)

/-- The `scale_factor_override` computed by `show()` (glwindow.rs lines
370-380): the runtime scale factor when it is `> 1`, else the value of
`SLINT_SCALE_FACTOR` when it parses and is `> 0`, else nothing. -/
def resolve_scale_factor_override (env : Env) : Option ℚ :=
  if 1 < env.runtime_scale_factor then
    some env.runtime_scale_factor
  else
    match env.slint_scale_factor_var with
    | some (some f) => if 0 < f then some f else none
    | _ => none

/-- The fullscreen / inner-size part of the builder chain in `show()`
(glwindow.rs lines 382-410), together with the `set_window_item_geometry`
effect fired in the layout-size branch. -/
def show_builder_and_geom (env : Env) (builder : WindowBuilder)
    (requested_size : Option PhysicalSize)
    (scale_factor_override : Option ℚ) : WindowBuilder × List Effect :=
  if env.slint_fullscreen then
    ({ builder with fullscreen := true }, [])
  else
    let sw := env.layout_preferred_bounded_h
    let sh := env.layout_preferred_bounded_v
    match requested_size with
    | some rs =>
        ({ builder with inner_size := some (.physical rs.width rs.height) }, [])
    | none =>
      if 0 < sw ∧ 0 < sh then
        match scale_factor_override with
        | some f =>
            ({ builder with inner_size := some (.logicalToPhysical sw sh f) },
             [Effect.setWindowItemGeometry sw sh])
        | none =>
            ({ builder with inner_size := some (.logical sw sh) },
             [Effect.setWindowItemGeometry sw sh])
      else
        (builder, [])

/-- The decorations / position part of the builder chain in `show()`
(glwindow.rs lines 412-421). -/
def show_final_builder (requested_position : Option PhysicalPoint)
    (builder : WindowBuilder) (no_frame : Bool) : WindowBuilder :=
  let builder2 :=
    if no_frame then { builder with decorations := false } else builder
  match requested_position with
  | some p => { builder2 with position := some p }
  | none => builder2

/-- `GLWindow::show` (glwindow.rs lines 342-489): return immediately when
already mapped; otherwise build the window from the buffered geometry, the
window item's attributes, the resolved scale-factor override and the
fullscreen flag, create the window and the canvas, fire `RenderingSetup`,
release context currency, set the runtime scale factor (override, or the
platform's value), register the window id and transition to `Mapped`. -/
def «show» (env : Env) (st : GLWindowState) : GLWindowState × List Effect :=
  match st.map_state with
  | .Mapped _ => (st, [])
  | .Unmapped requested_position requested_size =>
    let attrs := resolve_window_attributes env
    let window_builder := WindowBuilder.new attrs.1 attrs.2.2
    let scale_factor_override := resolve_scale_factor_override env
    let bg := show_builder_and_geom env window_builder requested_size
      scale_factor_override
    let final_builder := show_final_builder requested_position bg.1 attrs.2.1
    let mapped : MappedWindow :=
      { canvas := env.new_canvas, window_id := env.new_window_id,
        constraints := 0 }
    ({ st with map_state := .Mapped mapped },
     bg.2 ++
     [Effect.createWindow final_builder, Effect.createCanvas env.new_canvas] ++
     invoke_rendering_notifier_effects st .RenderingSetup ++
     [Effect.makeNotCurrent,
      Effect.setScaleFactor
        (scale_factor_override.getD env.platform_scale_factor),
      Effect.registerWindow env.new_window_id])

/-! Concrete fixtures used by witnesses and counterexamples. -/

/-- A concrete environment: default runtime scale factor, no environment
overrides, live event loop. -/
def env0 : Env :=
  { runtime_scale_factor := 1, slint_scale_factor_var := none,
    slint_fullscreen := false, window_item := none,
    layout_preferred_bounded_h := 0, layout_preferred_bounded_v := 0,
    platform_scale_factor := 1, new_window_id := 9, new_canvas := 3,
    loop_terminated := false, inner_size := { width := 640, height := 480 } }

/-- The same environment after the event loop has terminated. -/
def env_terminated : Env := { env0 with loop_terminated := true }

/-- An unmapped handle with buffered position and size requests. -/
def st_unmapped_buffered : GLWindowState :=
  { map_state := .Unmapped (some { x := 1, y := 2 })
      (some { width := 3, height := 4 }),
    keyboard_modifiers := 0, currently_pressed_key_code := none,
    existing_size := (0, 0), rendering_notifier := none }

/-- A mapped handle whose rendering-notifier slot holds notifier `7`. -/
def st_mapped_notifier : GLWindowState :=
  { map_state := .Mapped { canvas := 5, window_id := 42, constraints := 0 },
    keyboard_modifiers := 0, currently_pressed_key_code := none,
    existing_size := (0, 0), rendering_notifier := some 7 }

/-- Environment with the runtime scale factor preset to 2 and
`SLINT_SCALE_FACTOR=3` also set. -/
def env_runtime_scale : Env :=
  { env0 with runtime_scale_factor := 2, slint_scale_factor_var := some (some 3) }

/-- Environment with the runtime scale factor at its default and
`SLINT_SCALE_FACTOR=1.5`. -/
def env_env_scale : Env :=
  { env0 with slint_scale_factor_var := some (some (3 / 2)) }

/-- Environment with `SLINT_FULLSCREEN` present. -/
def env_fullscreen : Env := { env0 with slint_fullscreen := true }

/-- The effect trace of `hide` on `st_mapped_notifier` under `env0`. -/
def hide_trace_mapped : List Effect :=
  [Effect.makeCurrent, Effect.releaseCanvasResources,
   Effect.notify 7 .RenderingTeardown, Effect.makeNotCurrent,
   Effect.makeCurrent, Effect.unregisterWindow 42,
   Effect.postEvent .WindowHidden]

/-! Helper lemmas. -/

/-- For byte-valued components the `as u8` casts in the premultiplied icon
conversion never truncate: the conversion is exactly
`component * alpha / 255` per channel, exact alpha pass-through. -/
theorem premultiplied_chunk_to_straight_eq (p : Rgba8Pixel)
    (hr : p.r < 256) (hg : p.g < 256) (hb : p.b < 256) (ha : p.a < 256) :
    premultiplied_chunk_to_straight p =
      [p.r * p.a / 255, p.g * p.a / 255, p.b * p.a / 255, p.a] := by
  have key : ∀ c a : Nat, c < 256 → a < 256 → c * a / 255 % 256 = c * a / 255 := by
    intro c a hc ha2
    apply Nat.mod_eq_of_lt
    have h1 : c * a ≤ 255 * 255 := Nat.mul_le_mul (by omega) (by omega)
    have h2 : c * a / 255 ≤ 255 * 255 / 255 := Nat.div_le_div_right h1
    have h3 : 255 * 255 / 255 = 255 := by norm_num
    omega
  simp [premultiplied_chunk_to_straight, key _ _ hr ha, key _ _ hg ha,
    key _ _ hb ha, Nat.mod_eq_of_lt ha]

/-- Notifier invocations contain no `setScaleFactor` effect. -/
theorem filter_is_set_scale_invoke (st : GLWindowState) (rs : RenderingState) :
    (invoke_rendering_notifier_effects st rs).filter Effect.is_set_scale = [] := by
  cases h : st.rendering_notifier <;>
    simp [invoke_rendering_notifier_effects, h, Effect.is_set_scale]

/-- The builder/geometry stage of `show()` emits no `setScaleFactor` effect. -/
theorem filter_is_set_scale_builder_geom (env : Env) (b : WindowBuilder)
    (rs : Option PhysicalSize) (o : Option ℚ) :
    (show_builder_and_geom env b rs o).2.filter Effect.is_set_scale = [] := by
  unfold show_builder_and_geom
  dsimp only
  repeat' split
  all_goals simp [Effect.is_set_scale]

/-- On an unmapped handle, `show()` emits exactly one `setScaleFactor`
effect, carrying the resolved override (or the platform value). -/
theorem show_unmapped_scale_trace (env : Env) (st : GLWindowState)
    (p : Option PhysicalPoint) (s : Option PhysicalSize)
    (h : st.map_state = .Unmapped p s) :
    («show» env st).2.filter Effect.is_set_scale =
      [Effect.setScaleFactor
        ((resolve_scale_factor_override env).getD env.platform_scale_factor)] := by
  simp [«show», h, List.filter_append, filter_is_set_scale_builder_geom,
    filter_is_set_scale_invoke, Effect.is_set_scale]

/-- Notifier invocations contain no `createWindow` effect. -/
theorem create_window_not_in_invoke (st : GLWindowState) (rs : RenderingState)
    (b : WindowBuilder) :
    Effect.createWindow b ∉ invoke_rendering_notifier_effects st rs := by
  cases h : st.rendering_notifier <;>
    simp [invoke_rendering_notifier_effects, h]

/-- With `SLINT_FULLSCREEN` present, the builder/geometry stage of `show()`
just sets the borderless-fullscreen flag and emits nothing. -/
theorem show_builder_and_geom_fullscreen (env : Env) (b : WindowBuilder)
    (rs : Option PhysicalSize) (o : Option ℚ)
    (hfs : env.slint_fullscreen = true) :
    show_builder_and_geom env b rs o = ({ b with fullscreen := true }, []) := by
  simp [show_builder_and_geom, hfs]

/-- The decorations/position stage of `show()` does not change the fullscreen
flag or the inner size of the builder. -/
theorem show_final_builder_preserves (p : Option PhysicalPoint)
    (b : WindowBuilder) (nf : Bool) :
    (show_final_builder p b nf).fullscreen = b.fullscreen ∧
    (show_final_builder p b nf).inner_size = b.inner_size := by
  cases p <;> cases nf <;> simp [show_final_builder]

/-! Claims. -/

/-- Claim C1 counterexample: `hide()` on an unmapped handle with buffered
position `(1, 2)` and buffered size `(3, 4)` is not a no-op: it clears the
buffered geometry and posts a window-hidden event. -/
theorem hide_unmapped_counterexample :
    hide env0 st_unmapped_buffered =
      some ({ st_unmapped_buffered with map_state := .Unmapped none none },
            [Effect.postEvent .WindowHidden]) ∧
    ({ st_unmapped_buffered with map_state := .Unmapped none none } ≠
      st_unmapped_buffered) ∧
    ([Effect.postEvent CustomEvent.WindowHidden] ≠ ([] : List Effect)) := by
  refine ⟨rfl, by decide, by decide⟩

/-- Claim C1 (amended): the map state alternates between `Unmapped` (initial)
and `Mapped`: `show()` while `Mapped` is a complete no-op and `show()` while
`Unmapped` maps; `hide()` always leaves the state `Unmapped`.  However,
`hide()` while already `Unmapped` is not a no-op: it fires no rendering
notification, but it resets the buffered requested position and size to
`none` and posts a window-hidden event. -/
theorem show_hide_state_machine (env : Env) (st : GLWindowState) :
    (∀ w, st.map_state = .Mapped w → «show» env st = (st, [])) ∧
    (∀ p s, st.map_state = .Unmapped p s →
      («show» env st).1.map_state =
        .Mapped { canvas := env.new_canvas, window_id := env.new_window_id,
                  constraints := 0 }) ∧
    (∀ p s, st.map_state = .Unmapped p s → env.loop_terminated = false →
      hide env st =
        some ({ st with map_state := .Unmapped none none },
              [Effect.postEvent .WindowHidden])) ∧
    (∀ r, hide env st = some r → r.1.map_state = .Unmapped none none) := by
  refine ⟨?_, ?_, ?_, ?_⟩
  · intro w h
    simp [«show», h]
  · intro p s h
    simp [«show», h]
  · intro p s h hl
    simp [hide, release_graphics_resources, h, send_event, hl]
  · intro r hr
    by_cases hl : env.loop_terminated
    · simp [hide, send_event, hl] at hr
    · simp [hide, send_event, hl] at hr
      rw [← hr]

/-- Claim C1 witness: the state machine at concrete states. -/
theorem show_hide_state_machine_witness :
    «show» env0 st_mapped_notifier = (st_mapped_notifier, []) ∧
    («show» env0 st_unmapped_buffered).1.map_state =
      .Mapped { canvas := 3, window_id := 9, constraints := 0 } ∧
    hide env0 st_unmapped_buffered =
      some ({ st_unmapped_buffered with map_state := .Unmapped none none },
            [Effect.postEvent .WindowHidden]) := by
  refine ⟨?_, ?_, ?_⟩
  · exact (show_hide_state_machine env0 st_mapped_notifier).1 _ rfl
  · exact (show_hide_state_machine env0 st_unmapped_buffered).2.1
      (some { x := 1, y := 2 }) (some { width := 3, height := 4 }) rfl
  · exact (show_hide_state_machine env0 st_unmapped_buffered).2.2.1
      (some { x := 1, y := 2 }) (some { width := 3, height := 4 }) rfl rfl

/-- Claim C2 counterexample: with notifier `7` registered, registering
notifier `2` returns the `AlreadySet` error yet stores notifier `2`; a
subsequent `draw()` dispatches `AfterRendering` to `2`, not to `7`. -/
theorem set_rendering_notifier_counterexample :
    (set_rendering_notifier st_mapped_notifier 2).2 =
      .error .AlreadySet ∧
    (set_rendering_notifier st_mapped_notifier 2).1.rendering_notifier =
      some 2 ∧
    st_mapped_notifier.rendering_notifier = some 7 ∧
    (some 2 ≠ st_mapped_notifier.rendering_notifier) ∧
    Effect.notify 2 .AfterRendering ∈
      (draw env0 (set_rendering_notifier st_mapped_notifier 2).1).2 ∧
    Effect.notify 7 .AfterRendering ∉
      (draw env0 (set_rendering_notifier st_mapped_notifier 2).1).2 := by
  refine ⟨rfl, rfl, rfl, by decide, by decide, by decide⟩

/-- Claim C2 (amended): if a rendering notifier is already registered, a
second `setRenderingNotifier` call returns the typed `AlreadySet` error but
nonetheless replaces the stored notifier with the new callback, so on every
subsequent `draw()` the second (most recently registered) notifier is the one
invoked. -/
theorem set_rendering_notifier_replaces (st : GLWindowState) (n cb : Nat)
    (h : st.rendering_notifier = some n) :
    set_rendering_notifier st cb =
      ({ st with rendering_notifier := some cb }, .error .AlreadySet) ∧
    (∀ env w, st.map_state = .Mapped w →
      Effect.notify cb .AfterRendering ∈
        (draw env (set_rendering_notifier st cb).1).2) := by
  have h1 : set_rendering_notifier st cb =
      ({ st with rendering_notifier := some cb }, .error .AlreadySet) := by
    simp [set_rendering_notifier, h]
  refine ⟨h1, ?_⟩
  intro env w hm
  rw [h1]
  simp [draw, hm, invoke_rendering_notifier_effects]

/-- Claim C2 witness: replacing notifier `7` by `2` on the concrete mapped
handle. -/
theorem set_rendering_notifier_replaces_witness :
    set_rendering_notifier st_mapped_notifier 2 =
      ({ st_mapped_notifier with rendering_notifier := some 2 },
       .error .AlreadySet) ∧
    Effect.notify 2 .AfterRendering ∈
      (draw env0 (set_rendering_notifier st_mapped_notifier 2).1).2 := by
  have h := set_rendering_notifier_replaces st_mapped_notifier 7 2 rfl
  exact ⟨h.1, h.2 env0 { canvas := 5, window_id := 42, constraints := 0 } rfl⟩

/-- Claim C3 counterexample: on a concrete mapped handle with a registered
notifier, `hide()` emits the teardown sequence with the canvas's GPU
resources released strictly before the `RenderingTeardown` notification, never
after it — refuting the claimed "notification before release" order. -/
theorem hide_teardown_order_counterexample :
    (hide env0 st_mapped_notifier).map Prod.snd = some hide_trace_mapped ∧
    Effect.notify 7 .RenderingTeardown ∈ hide_trace_mapped ∧
    Effect.releaseCanvasResources ∈ hide_trace_mapped ∧
    ¬ ∃ i j : Fin hide_trace_mapped.length, i < j ∧
        hide_trace_mapped.get i = Effect.notify 7 .RenderingTeardown ∧
        hide_trace_mapped.get j = Effect.releaseCanvasResources := by
  refine ⟨rfl, by decide, by decide, by decide⟩

/-- Claim C3 (amended): `hide()` on a mapped handle makes the GPU context
current, releases the canvas's GPU-bound resources, then invokes the
`RenderingTeardown` notification (when a notifier is registered) and releases
context currency; it then drops the `MappedWindow` — which makes the context
current again and unregisters the window id from the event-loop bridge —
resets the state to `Unmapped` with cleared buffered geometry, and posts a
window-hidden event to the event loop. -/
theorem hide_mapped_sequence (env : Env) (st : GLWindowState)
    (w : MappedWindow) (hm : st.map_state = .Mapped w)
    (hl : env.loop_terminated = false) :
    hide env st =
      some ({ st with map_state := .Unmapped none none },
        [Effect.makeCurrent, Effect.releaseCanvasResources] ++
        invoke_rendering_notifier_effects st .RenderingTeardown ++
        [Effect.makeNotCurrent, Effect.makeCurrent,
         Effect.unregisterWindow w.window_id,
         Effect.postEvent .WindowHidden]) := by
  simp [hide, release_graphics_resources, mapped_window_drop_effects,
    send_event, hm, hl]

/-- Claim C3 witness: `hide` on the concrete mapped handle with notifier `7`. -/
theorem hide_mapped_sequence_witness :
    hide env0 st_mapped_notifier =
      some ({ st_mapped_notifier with map_state := .Unmapped none none },
            hide_trace_mapped) := by
  have h := hide_mapped_sequence env0 st_mapped_notifier
    { canvas := 5, window_id := 42, constraints := 0 } rfl rfl
  simpa [invoke_rendering_notifier_effects, st_mapped_notifier,
    hide_trace_mapped] using h

/-- Claim C5 counterexample: with the event loop terminated, `hide()` on the
concrete mapped handle panics (modelled as `none`) because it `.unwrap()`s the
posting result, while `requestWindowPropertiesUpdate` on the same handle
swallows the failure. -/
theorem post_event_panic_counterexample :
    hide env_terminated st_mapped_notifier = none ∧
    request_window_properties_update env_terminated st_mapped_notifier =
      (st_mapped_notifier, []) := ⟨rfl, rfl⟩

/-- Claim C5 (amended): a delivery failure of the property-update request
posted by `requestWindowPropertiesUpdate` is swallowed (no panic, no error,
no event), but the window-hidden posting in `hide()` unwraps the delivery
result and panics when the event loop has already terminated. -/
theorem post_event_failure_modes (env : Env) (st : GLWindowState)
    (w : MappedWindow) (hm : st.map_state = .Mapped w) :
    (request_window_properties_update env st =
      (st, if env.loop_terminated then []
           else [Effect.postEvent (.UpdateWindowProperties w.window_id)])) ∧
    (env.loop_terminated = true → hide env st = none) ∧
    (env.loop_terminated = false → (hide env st).isSome = true) := by
  refine ⟨?_, ?_, ?_⟩
  · simp only [request_window_properties_update, hm, send_event]
    split <;> rfl
  · intro hl
    simp [hide, send_event, hl]
  · intro hl
    simp [hide, send_event, hl]

/-- Claim C5 witness: the two posting operations on the concrete mapped handle
with the loop terminated and with the loop alive. -/
theorem post_event_failure_modes_witness :
    request_window_properties_update env_terminated st_mapped_notifier =
      (st_mapped_notifier, []) ∧
    hide env_terminated st_mapped_notifier = none ∧
    request_window_properties_update env0 st_mapped_notifier =
      (st_mapped_notifier,
       [Effect.postEvent (.UpdateWindowProperties 42)]) ∧
    (hide env0 st_mapped_notifier).isSome = true := by
  have hterm := post_event_failure_modes env_terminated st_mapped_notifier
    { canvas := 5, window_id := 42, constraints := 0 } rfl
  have hlive := post_event_failure_modes env0 st_mapped_notifier
    { canvas := 5, window_id := 42, constraints := 0 } rfl
  refine ⟨?_, hterm.2.1 rfl, ?_, hlive.2.2 rfl⟩
  · simpa using hterm.1
  · simpa using hlive.1

/-- Claim C4: `draw()` while the handle is `Unmapped` is a no-op returning
without error; it produces no effects at all — in particular it never invokes
the renderer adapter's render operation nor dispatches `BeforeRendering` or
`AfterRendering` to the notifier. -/
theorem draw_unmapped_noop (env : Env) (st : GLWindowState)
    (p : Option PhysicalPoint) (s : Option PhysicalSize)
    (h : st.map_state = .Unmapped p s) :
    draw env st = (st, []) ∧
    (∀ a b, Effect.render a b ∉ (draw env st).2) ∧
    (∀ n rs, Effect.notify n rs ∉ (draw env st).2) := by
  have hd : draw env st = (st, []) := by simp [draw, h]
  exact ⟨hd, fun a b => by rw [hd]; simp, fun n rs => by rw [hd]; simp⟩

/-- Claim C4 witness: `draw` on a concrete unmapped handle. -/
theorem draw_unmapped_noop_witness :
    draw env0 st_unmapped_buffered = (st_unmapped_buffered, []) :=
  (draw_unmapped_noop env0 st_unmapped_buffered
    (some { x := 1, y := 2 }) (some { width := 3, height := 4 }) rfl).1

/-- Claim C8 counterexample: the code converts the premultiplied pixel
`(100, 0, 0, 128)` to `(50, 0, 0, 128)` — `100 * 128 / 255 = 50` — whereas the
claimed formula `channel * 255 / alpha` would give `100 * 255 / 128 = 199`. -/
theorem set_icon_unpremultiply_counterexample :
    icon_rgba_pixels (.RGBA8Premultiplied 1 1
      [{ r := 100, g := 0, b := 0, a := 128 }]) = [50, 0, 0, 128] ∧
    100 * 255 / 128 = 199 ∧ (50 : Nat) ≠ 199 := by decide

/-- Claim C8 (amended): for every embedded RGBA8-premultiplied source image
with byte-valued components, `setIcon` converts each of the three color
channels as `channel * alpha / 255` with integer truncation (multiplying by
the alpha fraction rather than un-premultiplying) and passes the alpha channel
through unchanged. -/
theorem set_icon_premultiplied_formula (w h : Nat) (pixels : List Rgba8Pixel)
    (hbound : ∀ p ∈ pixels, p.r < 256 ∧ p.g < 256 ∧ p.b < 256 ∧ p.a < 256) :
    icon_rgba_pixels (.RGBA8Premultiplied w h pixels) =
      pixels.flatMap (fun p =>
        [p.r * p.a / 255, p.g * p.a / 255, p.b * p.a / 255, p.a]) := by
  induction pixels with
  | nil => rfl
  | cons p ps ih =>
    have hp := hbound p (List.mem_cons_self p ps)
    have hps : ∀ q ∈ ps, q.r < 256 ∧ q.g < 256 ∧ q.b < 256 ∧ q.a < 256 :=
      fun q hq => hbound q (List.mem_cons_of_mem p hq)
    have hhead := premultiplied_chunk_to_straight_eq p hp.1 hp.2.1 hp.2.2.1
      hp.2.2.2
    simpa [icon_rgba_pixels, hhead] using ih hps

/-- Claim C8 witness: the conversion at the concrete pixel `(200, 40, 60, 128)`. -/
theorem set_icon_premultiplied_formula_witness :
    icon_rgba_pixels (.RGBA8Premultiplied 1 1
      [{ r := 200, g := 40, b := 60, a := 128 }]) = [100, 20, 30, 128] := by
  rw [set_icon_premultiplied_formula 1 1 _ (by decide)]
  decide

/-- Claim C9: the per-channel icon conversion is exact integer truncation
matching `(component * alpha) / 255`: the premultiplied pixel
`(200, 0, 0, 128)` converts to `(100, 0, 0, 128)` with alpha passed through,
and the RGB8 pixel `(10, 20, 30)` converts to `(10, 20, 30, 255)`. -/
theorem set_icon_conversion_examples :
    icon_rgba_pixels (.RGBA8Premultiplied 1 1
      [{ r := 200, g := 0, b := 0, a := 128 }]) = [100, 0, 0, 128] ∧
    icon_rgba_pixels (.RGB8 1 1 [{ r := 10, g := 20, b := 30 }]) =
      [10, 20, 30, 255] ∧
    200 * 128 / 255 = 100 := by decide

/-- Claim C10: for every image, `set_icon` on an unmapped handle returns
without error, emits no effect (no platform icon is set), and leaves the
handle's state — map state with buffered geometry, notifier slot,
`existing_size` and the input-tracking fields — unchanged. -/
theorem set_icon_unmapped_noop (st : GLWindowState) (icon : ImageInner)
    (p : Option PhysicalPoint) (s : Option PhysicalSize)
    (h : st.map_state = .Unmapped p s) :
    set_icon st icon = (st, []) := by
  cases icon with
  | NonEmbedded => rfl
  | EmbeddedImage buffer => simp [set_icon, h]

/-- Claim C10 witness: a concrete embedded image on a concrete unmapped
handle. -/
theorem set_icon_unmapped_noop_witness :
    set_icon st_unmapped_buffered
      (.EmbeddedImage (.RGB8 1 1 [{ r := 10, g := 20, b := 30 }])) =
      (st_unmapped_buffered, []) :=
  set_icon_unmapped_noop st_unmapped_buffered _
    (some { x := 1, y := 2 }) (some { width := 3, height := 4 }) rfl

/-- Claim C6: at `show()` time the effective scale factor applied to the
runtime is resolved with this precedence: a runtime scale factor already set
programmatically to a value `> 1` wins (any `SLINT_SCALE_FACTOR` is ignored);
otherwise `SLINT_SCALE_FACTOR` wins when it parses to a value `> 0`;
otherwise the platform-reported scale factor of the new native window is
used. -/
theorem show_scale_factor_precedence (env : Env) (st : GLWindowState)
    (p : Option PhysicalPoint) (s : Option PhysicalSize)
    (hst : st.map_state = .Unmapped p s) :
    (1 < env.runtime_scale_factor →
      («show» env st).2.filter Effect.is_set_scale =
        [Effect.setScaleFactor env.runtime_scale_factor]) ∧
    (¬ 1 < env.runtime_scale_factor →
      ∀ f, env.slint_scale_factor_var = some (some f) → 0 < f →
      («show» env st).2.filter Effect.is_set_scale =
        [Effect.setScaleFactor f]) ∧
    (¬ 1 < env.runtime_scale_factor →
      (∀ f, env.slint_scale_factor_var = some (some f) → ¬ 0 < f) →
      («show» env st).2.filter Effect.is_set_scale =
        [Effect.setScaleFactor env.platform_scale_factor]) := by
  have ht := show_unmapped_scale_trace env st p s hst
  refine ⟨?_, ?_, ?_⟩
  · intro h1
    rw [ht]
    simp [resolve_scale_factor_override, h1]
  · intro h1 f hf hpos
    rw [ht]
    simp [resolve_scale_factor_override, h1, hf, hpos]
  · intro h1 hnone
    rw [ht]
    have hres : resolve_scale_factor_override env = none := by
      unfold resolve_scale_factor_override
      rw [if_neg h1]
      cases hv : env.slint_scale_factor_var with
      | none => rfl
      | some o =>
        cases o with
        | none => rfl
        | some f =>
          have := hnone f hv
          simp [this]
    simp [hres]

/-- Claim C6 witness: runtime factor 2 beats `SLINT_SCALE_FACTOR=3`; runtime
factor at default with `SLINT_SCALE_FACTOR=1.5` yields 1.5; neither set falls
back to the platform value 1. -/
theorem show_scale_factor_precedence_witness :
    («show» env_runtime_scale st_unmapped_buffered).2.filter
      Effect.is_set_scale = [Effect.setScaleFactor 2] ∧
    («show» env_env_scale st_unmapped_buffered).2.filter
      Effect.is_set_scale = [Effect.setScaleFactor (3 / 2)] ∧
    («show» env0 st_unmapped_buffered).2.filter
      Effect.is_set_scale = [Effect.setScaleFactor 1] := by
  refine ⟨?_, ?_, ?_⟩
  · exact (show_scale_factor_precedence env_runtime_scale st_unmapped_buffered
      (some { x := 1, y := 2 }) (some { width := 3, height := 4 }) rfl).1
      (by norm_num [env_runtime_scale, env0])
  · exact (show_scale_factor_precedence env_env_scale st_unmapped_buffered
      (some { x := 1, y := 2 }) (some { width := 3, height := 4 }) rfl).2.1
      (by norm_num [env_env_scale, env0]) (3 / 2) rfl (by norm_num)
  · exact (show_scale_factor_precedence env0 st_unmapped_buffered
      (some { x := 1, y := 2 }) (some { width := 3, height := 4 }) rfl).2.2
      (by norm_num [env0]) (fun f hf => by simp [env0] at hf)

/-- Claim C7: when `SLINT_FULLSCREEN` is present at `show()` time, the native
window is created borderless fullscreen and no inner size is applied to it —
even when a buffered requested size was set while unmapped. -/
theorem show_fullscreen_overrides_size (env : Env) (st : GLWindowState)
    (p : Option PhysicalPoint) (s : PhysicalSize)
    (hst : st.map_state = .Unmapped p (some s))
    (hfs : env.slint_fullscreen = true) :
    (∃ b, Effect.createWindow b ∈ («show» env st).2) ∧
    (∀ b, Effect.createWindow b ∈ («show» env st).2 →
      b.fullscreen = true ∧ b.inner_size = none) := by
  have hbg := show_builder_and_geom_fullscreen env
    (WindowBuilder.new (resolve_window_attributes env).1
      (resolve_window_attributes env).2.2)
    (some s) (resolve_scale_factor_override env) hfs
  constructor
  · refine ⟨show_final_builder p
      ({ WindowBuilder.new (resolve_window_attributes env).1
          (resolve_window_attributes env).2.2 with fullscreen := true })
      (resolve_window_attributes env).2.1, ?_⟩
    simp [«show», hst, hbg]
  · intro b hb
    simp only [«show», hst, hbg] at hb
    simp [List.mem_append, create_window_not_in_invoke] at hb
    refine ⟨?_, ?_⟩
    · rw [hb, (show_final_builder_preserves _ _ _).1]
    · rw [hb, (show_final_builder_preserves _ _ _).2]
      simp [WindowBuilder.new]

/-- Claim C7 witness: the concrete unmapped handle with buffered size `(3, 4)`
under `SLINT_FULLSCREEN`. -/
theorem show_fullscreen_overrides_size_witness :
    (∃ b, Effect.createWindow b ∈
      («show» env_fullscreen st_unmapped_buffered).2) ∧
    (∀ b, Effect.createWindow b ∈
        («show» env_fullscreen st_unmapped_buffered).2 →
      b.fullscreen = true ∧ b.inner_size = none) :=
  show_fullscreen_overrides_size env_fullscreen st_unmapped_buffered
    (some { x := 1, y := 2 }) { width := 3, height := 4 } rfl rfl

end GLWindowSpec
